import Mathlib

/-!
Shallow embedding of the SEO toolkit's scoring engine
(`app/utils/seo-helpers.ts`) and local persistence store
(`app/utils/storage.client.ts`), together with theorems settling the
specification claims about them.

Conventions:
* JS numbers are modelled by `ℚ` (all arithmetic in these modules is
  exact rational arithmetic); `Math.round` is modelled by `jsRound`.
* JS strings are Lean `String`s; `split(/\s+/).filter(Boolean)` is
  modelled by splitting at each whitespace character and dropping empty
  pieces (equivalent after the `filter(Boolean)`).
* Absent (`null`/`undefined`) arguments are modelled by `Option`.
* Thrown exceptions are modelled by `Except Unit`.
-/

set_option maxRecDepth 10000

/-- JS `Math.round`: round half up (toward positive infinity). -/
def jsRound (q : ℚ) : ℤ := ⌊q + 1/2⌋

/-- JS `s.split(/\s+/).filter(Boolean)`: the non-empty maximal runs of
non-whitespace characters. -/
def splitWords (s : String) : List String :=
  (s.split Char.isWhitespace).filter (fun w => w ≠ "")

/-- Substring test on character lists (used to model JS
`String.prototype.includes`). -/
def listIncludes (needle : List Char) : List Char → Bool
  | [] => needle.isEmpty
  | c :: rest => needle.isPrefixOf (c :: rest) || listIncludes needle rest

/-- JS `hay.includes(needle)`. -/
def strIncludes (hay needle : String) : Bool :=
  listIncludes needle.toList hay.toList

/-- `calculateTitleScore` from `seo-helpers.ts` (lines 64-95).
`title` is `Option String` to model `string | null | undefined`; the JS
falsy test `!title` is the `none` / empty-string test. -/
def calculateTitleScore (title : Option String) (targetKeywords : List String) : ℤ :=
  match title with
  | none => 0
  | some t =>
    if t = "" then 0
    else
      let length := t.length
      let score : ℤ :=
        if 50 ≤ length ∧ length ≤ 60 then 100
        else if 40 ≤ length ∧ length ≤ 70 then 70
        else if 0 < length then 40
        else 0
      if targetKeywords.length > 0 then
        let titleLower := t.toLower
        let keywordMatch :=
          targetKeywords.any (fun keyword => strIncludes titleLower keyword.toLower)
        let score := if keywordMatch then score + 100 else score
        jsRound ((score : ℚ) / 2)
      else
        score

/-- `calculateDescriptionScore` from `seo-helpers.ts` (lines 98-129):
same structure as the title score with length bands [150,160] / [120,170]. -/
def calculateDescriptionScore (description : Option String) (targetKeywords : List String) : ℤ :=
  match description with
  | none => 0
  | some d =>
    if d = "" then 0
    else
      let length := d.length
      let score : ℤ :=
        if 150 ≤ length ∧ length ≤ 160 then 100
        else if 120 ≤ length ∧ length ≤ 170 then 70
        else if 0 < length then 40
        else 0
      if targetKeywords.length > 0 then
        let descLower := d.toLower
        let keywordMatch :=
          targetKeywords.any (fun keyword => strIncludes descLower keyword.toLower)
        let score := if keywordMatch then score + 100 else score
        jsRound ((score : ℚ) / 2)
      else
        score

/-- A heading as inspected by `calculateHeadingsScore`: only the `type`
field (`'h1'`, `'h2'`, ...) is ever read. -/
structure Heading where
  type : String
deriving DecidableEq

/-- `calculateHeadingsScore` from `seo-helpers.ts` (lines 132-158).
The JS guard `!headings || !Array.isArray(headings)` is modelled by the
`Option`: `none` stands for any absent or non-array argument. -/
def calculateHeadingsScore (headings : Option (List Heading)) : ℤ :=
  match headings with
  | none => 0
  | some hs =>
    let score : ℤ := 0
    let score := if hs.any (fun h => h.type == "h1") then score + 50 else score
    let score := if hs.any (fun h => h.type == "h2") then score + 25 else score
    let h1Count := (hs.filter (fun h => h.type == "h1")).length
    let score :=
      if h1Count = 1 then score + 25
      else if h1Count > 1 then score - 25
      else score
    max 0 (min 100 score)

/-- `headings.some(h => h.type === t)` over a JS array whose elements
may be null/undefined (the parameter is typed `any`): reading `h.type`
on a null element throws a TypeError, modelled by `Except.error`.  The
callback is applied left to right and `some` stops at the first hit. -/
def jsSomeType (t : String) : List (Option Heading) → Except Unit Bool
  | [] => .ok false
  | none :: _ => .error ()
  | some h :: rest => if h.type == t then .ok true else jsSomeType t rest

/-- `headings.filter(h => h.type === t).length` over a JS array whose
elements may be null/undefined: reading `h.type` on a null element
throws, modelled by `Except.error`. -/
def jsCountType (t : String) : List (Option Heading) → Except Unit ℕ
  | [] => .ok 0
  | none :: _ => .error ()
  | some h :: rest =>
    match jsCountType t rest with
    | .error e => .error e
    | .ok n => .ok (if h.type == t then n + 1 else n)

/-- `calculateHeadingsScore` (lines 132-158) over a JS array whose
elements may be null/undefined, which the `!headings ||
!Array.isArray(headings)` guard does not reject: a thrown TypeError
from `h.type` propagates out of the function (`Except.error`). -/
def calculateHeadingsScoreJs (headings : Option (List (Option Heading))) : Except Unit ℤ :=
  match headings with
  | none => .ok 0
  | some hs =>
    match jsSomeType "h1" hs with
    | .error e => .error e
    | .ok hasH1 =>
      let score : ℤ := 0
      let score := if hasH1 then score + 50 else score
      match jsSomeType "h2" hs with
      | .error e => .error e
      | .ok hasH2 =>
        let score := if hasH2 then score + 25 else score
        match jsCountType "h1" hs with
        | .error e => .error e
        | .ok h1Count =>
          let score :=
            if h1Count = 1 then score + 25
            else if h1Count > 1 then score - 25
            else score
          .ok (max 0 (min 100 score))

/-- The `indexOf`/`lastIndex` loop of `calculateKeywordDensityScore`
(lines 204-209): it finds a match at every start position in turn
(overlapping occurrences included), so the count is the number of
positions at which `needle` occurs.  The loop is only reached for a
non-empty `needle`. -/
def countOccurrences (hay needle : List Char) : ℕ :=
  (List.range hay.length).countP (fun i => needle.isPrefixOf (hay.drop i))

/-- `calculateKeywordDensityScore` from `seo-helpers.ts` (lines 197-232).
The guard `!content || !keyword` is the nested emptiness test. -/
def calculateKeywordDensityScore (content : Option String) (keyword : String) : ℤ :=
  match content with
  | none => 0
  | some c =>
    if c = "" then 0
    else if keyword = "" then 0
    else
      let contentLower := c.toLower
      let keywordLower := keyword.toLower
      let count := countOccurrences contentLower.toList keywordLower.toList
      let totalWords := (splitWords contentLower).length
      if totalWords = 0 then 0
      else
        let density : ℚ :=
          ((count : ℚ) * ((splitWords keywordLower).length : ℚ) / (totalWords : ℚ)) * 100
        if 1 ≤ density ∧ density ≤ 3 then 100
        else if 0 < density ∧ density < 1 then 70
        else if 3 < density ∧ density ≤ 5 then 50
        else if 5 < density then 30
        else 0

/-- Splitting on the regex `/\n\s*\n/` (used for the paragraph count in
`calculateContentScore`): a separator starts at a newline and extends,
greedily with backtracking, through following whitespace up to the last
newline of that whitespace run. -/
def paraSplitAux : List Char → List Char → List (List Char)
  | [], acc => [acc.reverse]
  | c :: rest, acc =>
    if c = '\n' then
      let t := rest.takeWhile (fun d => d.isWhitespace)
      match t.reverse.findIdx? (fun d => d == '\n') with
      | some j =>
        acc.reverse :: paraSplitAux (rest.drop (t.length - j)) []
      | none => paraSplitAux rest (c :: acc)
    else
      paraSplitAux rest (c :: acc)
termination_by l _ => l.length
decreasing_by
  · simp only [List.length_drop, List.length_cons]; omega
  · simp only [List.length_cons]; omega
  · simp only [List.length_cons]; omega

/-- JS `content.split(/\n\s*\n/)`. -/
def paraSplit (s : String) : List String :=
  (paraSplitAux s.toList []).map (fun cs => String.mk cs)

/-- `calculateContentScore` from `seo-helpers.ts` (lines 161-194).  The
source's `minWords = 300` default is passed explicitly by callers here. -/
def calculateContentScore (content : Option String) (minWords : ℚ) : ℤ :=
  match content with
  | none => 0
  | some c =>
    if c = "" then 0
    else
      let wordCount := (splitWords c).length
      let score : ℤ := 0
      let score :=
        if (wordCount : ℚ) ≥ minWords then score + 60
        else if (wordCount : ℚ) ≥ minWords / 2 then score + 30
        else score
      let paragraphs := paraSplit c
      let score := if paragraphs.length ≥ 3 then score + 20 else score
      let sentences := (c.split (fun ch => ch == '.' || ch == '!' || ch == '?')).filter
        (fun s => s ≠ "")
      let sentenceLengths := sentences.map (fun s => (splitWords s.trim).length)
      let hasVariety :=
        sentenceLengths.any (fun len => len ≤ 10) && sentenceLengths.any (fun len => len > 15)
      let score := if hasVariety then score + 20 else score
      score

/-- The fixed factor weight table of `calculateSeoScore`
(`seo-helpers.ts` lines 12-25). -/
def weights : List (String × ℚ) :=
  [("metaTitle", 0.10), ("metaDescription", 0.10), ("headings", 0.08),
   ("contentQuality", 0.12), ("keywordDensity", 0.10), ("internalLinks", 0.08),
   ("externalLinks", 0.05), ("imagesAlt", 0.05), ("pageSpeed", 0.10),
   ("mobileCompatibility", 0.08), ("security", 0.07), ("socialMetadata", 0.07)]

/-- `calculateSeoScore` from `seo-helpers.ts` (lines 10-45): one pass over
the entries of the factor object accumulating the weighted sum and the
weight applied, then renormalization when the applied weight is in (0,1). -/
def calculateSeoScore (factors : List (String × ℚ)) : ℤ :=
  let acc := factors.foldl
    (fun (acc : ℚ × ℚ) fv =>
      match weights.lookup fv.1 with
      | some weight => (acc.1 + fv.2 * weight, acc.2 + weight)
      | none => acc)
    (0, 0)
  let totalWeightedScore := acc.1
  let totalWeightApplied := acc.2
  if 0 < totalWeightApplied ∧ totalWeightApplied < 1 then
    jsRound (totalWeightedScore / totalWeightApplied)
  else
    jsRound totalWeightedScore

/-! ## Local persistence store (`app/utils/storage.client.ts`) -/

/-- The browser `localStorage` as seen by this module: a key-value map
plus two failure switches — `avail = false` models an environment where
touching `localStorage` throws (access error), `quotaFull = true` models
`setItem` throwing a quota-exceeded error. -/
structure LocalStorage where
  avail : Bool
  quotaFull : Bool
  items : String → Option String

/-- `localStorage.getItem(key)`: throws when storage is unavailable,
otherwise yields the stored string (or nothing). -/
def getItem (s : LocalStorage) (key : String) : Except Unit (Option String) :=
  if s.avail then .ok (s.items key) else .error ()

/-- `localStorage.setItem(key, value)`: throws when storage is
unavailable or the quota is exceeded, otherwise stores the value. -/
def setItem (s : LocalStorage) (key value : String) : Except Unit LocalStorage :=
  if s.avail && !s.quotaFull then
    .ok { s with items := fun k => if k = key then some value else s.items k }
  else .error ()

/-- `getFromStorage` (`storage.client.ts` lines 105-115): no window →
default; any read or parse failure is caught and the default returned.
`decode` models `JSON.parse` plus the cast to `T`; `none` stands for a
parse error (which the JS catches). -/
def getFromStorage {α : Type} (window : Bool) (s : LocalStorage) (key : String)
    (decode : String → Option α) (defaultValue : α) : α :=
  if !window then defaultValue
  else
    match getItem s key with
    | .error _ => defaultValue
    | .ok none => defaultValue
    | .ok (some raw) =>
      if raw = "" then defaultValue
      else
        match decode raw with
        | none => defaultValue
        | some v => v

/-- `setInStorage` (`storage.client.ts` lines 118-127): no window →
silent return (state unchanged); a write failure is caught, logged and
re-thrown. -/
def setInStorage (window : Bool) (s : LocalStorage) (key value : String) :
    Except Unit LocalStorage :=
  if !window then .ok s
  else
    match setItem s key value with
    | .error e => .error e
    | .ok s2 => .ok s2

/-- `Project` interface (`storage.client.ts` lines 14-20). -/
structure Project where
  id : String
  name : String
  url : String
  dateCreated : String
  dateUpdated : String
deriving DecidableEq

/-- `AnalysisResult` interface (lines 23-30); the untyped `summaryData`
payload is modelled as an opaque optional string. -/
structure AnalysisResult where
  id : String
  url : String
  dateAnalyzed : String
  score : ℚ
  taskId : Option String
  summaryData : Option String
deriving DecidableEq

/-- `SavedKeyword` interface (lines 33-41). -/
structure SavedKeyword where
  id : String
  keyword : String
  dateAdded : String
  volume : Option ℚ
  difficulty : Option ℚ
  cpc : Option ℚ
  related : Option (List String)
deriving DecidableEq

/-- `SavedContent` interface (lines 44-52). -/
structure SavedContent where
  id : String
  title : String
  content : String
  targetKeywords : List String
  dateCreated : String
  dateUpdated : String
  score : Option ℚ
deriving DecidableEq

/-- `CompetitorAnalysis` interface (lines 55-61); the untyped `results`
payload is modelled as an opaque optional string. -/
structure CompetitorAnalysis where
  id : String
  dateCreated : String
  mainDomain : String
  competitorDomains : List String
  results : Option String
deriving DecidableEq

/-- `Credentials` interface (lines 64-74), flattened. -/
structure Credentials where
  dataForSeoUsername : String
  dataForSeoPassword : String
  openaiApiKey : String
  openaiModel : String
  openaiBaseUrl : String
deriving DecidableEq

/-- `ApiEndpoints` interface (lines 77-85), flattened. -/
structure ApiEndpoints where
  baseUrl : String
  serpEndpoint : String
  onPageEndpoint : String
  contentAnalysisEndpoint : String
  keywordDataEndpoint : String
deriving DecidableEq

/-- `UserSettings` interface (lines 88-93). -/
structure UserSettings where
  language : String
  country : String
  defaultKeywordLocation : Option String
  theme : Option String
deriving DecidableEq

/-- `STORAGE_KEYS` (lines 2-11). -/
def PROJECTS_KEY : String := "seo-toolkit-projects"

def RECENT_ANALYSES_KEY : String := "seo-toolkit-recent-analyses"

def SAVED_KEYWORDS_KEY : String := "seo-toolkit-saved-keywords"

def SAVED_CONTENT_KEY : String := "seo-toolkit-saved-content"

def COMPETITOR_ANALYSES_KEY : String := "seo-toolkit-competitor-analyses"

def SETTINGS_KEY : String := "seo-toolkit-settings"

def CREDENTIALS_KEY : String := "seo-toolkit-credentials"

def API_ENDPOINTS_KEY : String := "seo-toolkit-api-endpoints"

/-- The collection update performed by `saveProject` (lines 134-151)
between the read and the write: replace at the first index with a
matching id (restamping `dateUpdated`), else push a fully restamped
copy.  `now` models `new Date().toISOString()`. -/
def saveProjectOn (projects : List Project) (project : Project) (now : String) :
    List Project :=
  match projects.findIdx? (fun p => p.id == project.id) with
  | some index => projects.set index { project with dateUpdated := now }
  | none => projects ++ [{ project with dateCreated := now, dateUpdated := now }]

/-- The collection update performed by `saveAnalysisResult`
(lines 163-181): replace at a matching id as passed, else `unshift` at
the front and `pop` the last entry once the length exceeds 10. -/
def saveAnalysisResultOn (analyses : List AnalysisResult) (analysis : AnalysisResult) :
    List AnalysisResult :=
  match analyses.findIdx? (fun a => a.id == analysis.id) with
  | some index => analyses.set index analysis
  | none =>
    let analyses := analysis :: analyses
    if analyses.length > 10 then analyses.dropLast else analyses

/-- The collection update performed by `saveKeyword` (lines 193-209):
replace at a matching id as passed (no restamp), else push with
`dateAdded` stamped. -/
def saveKeywordOn (keywords : List SavedKeyword) (keyword : SavedKeyword) (now : String) :
    List SavedKeyword :=
  match keywords.findIdx? (fun k => k.id == keyword.id) with
  | some index => keywords.set index keyword
  | none => keywords ++ [{ keyword with dateAdded := now }]

/-- The collection update performed by `saveContent` (lines 221-241):
replace at a matching id restamping `dateUpdated`, else push with both
timestamps stamped. -/
def saveContentOn (contents : List SavedContent) (content : SavedContent) (now : String) :
    List SavedContent :=
  match contents.findIdx? (fun c => c.id == content.id) with
  | some index => contents.set index { content with dateUpdated := now }
  | none => contents ++ [{ content with dateCreated := now, dateUpdated := now }]

/-- The collection update performed by `saveCompetitorAnalysis`
(lines 253-269): replace at a matching id as passed (no restamp), else
push with `dateCreated` stamped. -/
def saveCompetitorAnalysisOn (analyses : List CompetitorAnalysis)
    (analysis : CompetitorAnalysis) (now : String) : List CompetitorAnalysis :=
  match analyses.findIdx? (fun a => a.id == analysis.id) with
  | some index => analyses.set index analysis
  | none => analyses ++ [{ analysis with dateCreated := now }]

/-- `getProjects` (lines 130-132). -/
def getProjects (window : Bool) (s : LocalStorage)
    (decode : String → Option (List Project)) : List Project :=
  getFromStorage window s PROJECTS_KEY decode []

/-- `saveProject` (lines 134-151): read, update, write back. -/
def saveProject (window : Bool) (s : LocalStorage)
    (decode : String → Option (List Project)) (encode : List Project → String)
    (project : Project) (now : String) : Except Unit LocalStorage :=
  setInStorage window s PROJECTS_KEY
    (encode (saveProjectOn (getProjects window s decode) project now))

/-- `getRecentAnalyses` (lines 159-161). -/
def getRecentAnalyses (window : Bool) (s : LocalStorage)
    (decode : String → Option (List AnalysisResult)) : List AnalysisResult :=
  getFromStorage window s RECENT_ANALYSES_KEY decode []

/-- `saveAnalysisResult` (lines 163-181). -/
def saveAnalysisResult (window : Bool) (s : LocalStorage)
    (decode : String → Option (List AnalysisResult))
    (encode : List AnalysisResult → String) (analysis : AnalysisResult) :
    Except Unit LocalStorage :=
  setInStorage window s RECENT_ANALYSES_KEY
    (encode (saveAnalysisResultOn (getRecentAnalyses window s decode) analysis))

/-- `getSavedKeywords` (lines 189-191). -/
def getSavedKeywords (window : Bool) (s : LocalStorage)
    (decode : String → Option (List SavedKeyword)) : List SavedKeyword :=
  getFromStorage window s SAVED_KEYWORDS_KEY decode []

/-- `saveKeyword` (lines 193-209). -/
def saveKeyword (window : Bool) (s : LocalStorage)
    (decode : String → Option (List SavedKeyword)) (encode : List SavedKeyword → String)
    (keyword : SavedKeyword) (now : String) : Except Unit LocalStorage :=
  setInStorage window s SAVED_KEYWORDS_KEY
    (encode (saveKeywordOn (getSavedKeywords window s decode) keyword now))

/-- `getSavedContent` (lines 217-219). -/
def getSavedContent (window : Bool) (s : LocalStorage)
    (decode : String → Option (List SavedContent)) : List SavedContent :=
  getFromStorage window s SAVED_CONTENT_KEY decode []

/-- `saveContent` (lines 221-241). -/
def saveContent (window : Bool) (s : LocalStorage)
    (decode : String → Option (List SavedContent)) (encode : List SavedContent → String)
    (content : SavedContent) (now : String) : Except Unit LocalStorage :=
  setInStorage window s SAVED_CONTENT_KEY
    (encode (saveContentOn (getSavedContent window s decode) content now))

/-- `getCompetitorAnalyses` (lines 249-251). -/
def getCompetitorAnalyses (window : Bool) (s : LocalStorage)
    (decode : String → Option (List CompetitorAnalysis)) : List CompetitorAnalysis :=
  getFromStorage window s COMPETITOR_ANALYSES_KEY decode []

/-- `saveCompetitorAnalysis` (lines 253-269). -/
def saveCompetitorAnalysis (window : Bool) (s : LocalStorage)
    (decode : String → Option (List CompetitorAnalysis))
    (encode : List CompetitorAnalysis → String) (analysis : CompetitorAnalysis)
    (now : String) : Except Unit LocalStorage :=
  setInStorage window s COMPETITOR_ANALYSES_KEY
    (encode (saveCompetitorAnalysisOn (getCompetitorAnalyses window s decode) analysis now))

/-- The default credentials object of `getCredentials` (lines 277-289). -/
def defaultCredentials : Credentials :=
  { dataForSeoUsername := "", dataForSeoPassword := "", openaiApiKey := "",
    openaiModel := "gpt-4", openaiBaseUrl := "https://api.openai.com/v1" }

/-- `getCredentials` (lines 277-289). -/
def getCredentials (window : Bool) (s : LocalStorage)
    (decode : String → Option Credentials) : Credentials :=
  getFromStorage window s CREDENTIALS_KEY decode defaultCredentials

/-- `saveCredentials` (lines 291-293). -/
def saveCredentials (window : Bool) (s : LocalStorage) (encode : Credentials → String)
    (credentials : Credentials) : Except Unit LocalStorage :=
  setInStorage window s CREDENTIALS_KEY (encode credentials)

/-- The default endpoints object of `getApiEndpoints` (lines 296-306). -/
def defaultApiEndpoints : ApiEndpoints :=
  { baseUrl := "https://api.dataforseo.com/v3", serpEndpoint := "/serp",
    onPageEndpoint := "/on_page", contentAnalysisEndpoint := "/content_analysis",
    keywordDataEndpoint := "/keywords_data" }

/-- `getApiEndpoints` (lines 296-306). -/
def getApiEndpoints (window : Bool) (s : LocalStorage)
    (decode : String → Option ApiEndpoints) : ApiEndpoints :=
  getFromStorage window s API_ENDPOINTS_KEY decode defaultApiEndpoints

/-- `saveApiEndpoints` (lines 308-310). -/
def saveApiEndpoints (window : Bool) (s : LocalStorage) (encode : ApiEndpoints → String)
    (endpoints : ApiEndpoints) : Except Unit LocalStorage :=
  setInStorage window s API_ENDPOINTS_KEY (encode endpoints)

/-- The default settings object of `getUserSettings` (lines 313-320). -/
def defaultUserSettings : UserSettings :=
  { language := "en", country := "US", defaultKeywordLocation := some "2840",
    theme := some "light" }

/-- `getUserSettings` (lines 313-320). -/
def getUserSettings (window : Bool) (s : LocalStorage)
    (decode : String → Option UserSettings) : UserSettings :=
  getFromStorage window s SETTINGS_KEY decode defaultUserSettings

/-- `saveUserSettings` (lines 322-324). -/
def saveUserSettings (window : Bool) (s : LocalStorage) (encode : UserSettings → String)
    (settings : UserSettings) : Except Unit LocalStorage :=
  setInStorage window s SETTINGS_KEY (encode settings)

/-! ## Spec-side definitions used to state refinement claims -/

/-- Spec formulation of the title score (claim C5's wording): a length
subscore, and with a non-empty keyword list the rounded average with a
keyword subscore. -/
def specTitleScore (title : Option String) (targetKeywords : List String) : ℤ :=
  match title with
  | none => 0
  | some t =>
    if t = "" then 0
    else
      let lengthScore : ℤ :=
        if 50 ≤ t.length ∧ t.length ≤ 60 then 100
        else if 40 ≤ t.length ∧ t.length ≤ 70 then 70
        else 40
      if targetKeywords = [] then lengthScore
      else
        let keywordScore : ℤ :=
          if targetKeywords.any (fun k => strIncludes t.toLower k.toLower) then 100 else 0
        jsRound (((lengthScore + keywordScore : ℤ) : ℚ) / 2)

/-- The density percentage computed inside `calculateKeywordDensityScore`
(line 218): occurrences × words-in-keyword / total-words × 100, on the
lowercased strings. -/
def keywordDensity (c keyword : String) : ℚ :=
  ((countOccurrences c.toLower.toList keyword.toLower.toList : ℚ) *
    ((splitWords keyword.toLower).length : ℚ) / ((splitWords c.toLower).length : ℚ)) * 100

/-- The total weight applied by `calculateSeoScore`: the sum of the
table weights of the recognized factor keys. -/
def specWeightApplied (factors : List (String × ℚ)) : ℚ :=
  (factors.filterMap (fun fv => weights.lookup fv.1)).sum

/-- The weighted sum accumulated by `calculateSeoScore`: score × weight
over the recognized factor keys. -/
def specWeightedSum (factors : List (String × ℚ)) : ℚ :=
  (factors.filterMap (fun fv => (weights.lookup fv.1).map (fun w => fv.2 * w))).sum

def sampleAnalysis (i : String) : AnalysisResult :=
  ⟨i, "https://example.com", "t0", 50, none, none⟩

def sampleAnalysesEleven : List AnalysisResult :=
  ["a01", "a02", "a03", "a04", "a05", "a06", "a07", "a08", "a09", "a10", "a11"].map
    sampleAnalysis

def storeUnavailable : LocalStorage := ⟨false, false, fun _ => none⟩

def storeQuotaFull : LocalStorage := ⟨true, true, fun _ => none⟩

def sampleProject : Project := ⟨"p1", "name", "https://example.com", "t0", "t0"⟩

def sampleKeyword : SavedKeyword := ⟨"k1", "seo", "t0", none, none, none, none⟩

def sampleContent : SavedContent := ⟨"c1", "title", "body", [], "t0", "t0", none⟩

def sampleCompetitor : CompetitorAnalysis := ⟨"x1", "t0", "example.com", [], none⟩

def sampleProject2 : Project := ⟨"p1", "name2", "https://example.com", "t0", "t0"⟩

def sampleAnalysis2 : AnalysisResult := ⟨"a01", "https://other.com", "t1", 60, none, none⟩

def sampleKeyword2 : SavedKeyword := ⟨"k1", "seo tools", "t0", none, none, none, none⟩

def sampleContent2 : SavedContent := ⟨"c1", "title2", "body2", [], "t0", "t0", none⟩

def sampleCompetitor2 : CompetitorAnalysis := ⟨"x1", "t0", "other.com", [], none⟩

/-! ## Helper lemmas -/

lemma string_length_pos {s : String} (h : s ≠ "") : 0 < s.length := by
  rcases s with ⟨data⟩
  cases data with
  | nil => exact absurd rfl h
  | cons c cs => simp [String.length]

lemma jsRound_bounds {q : ℚ} (h0 : 0 ≤ q) (h1 : q ≤ 100) :
    0 ≤ jsRound q ∧ jsRound q ≤ 100 := by
  unfold jsRound
  constructor
  · exact Int.le_floor.mpr (by push_cast; linarith)
  · have : ⌊q + 1/2⌋ < 101 := Int.floor_lt.mpr (by push_cast; linarith)
    omega

lemma lookup_mem_values {l : List (String × ℚ)} {k : String} {w : ℚ}
    (h : l.lookup k = some w) : w ∈ l.map Prod.snd := by
  induction l with
  | nil => simp [List.lookup] at h
  | cons p tl ih =>
    rcases p with ⟨a, b⟩
    by_cases hak : k == a
    · simp [List.lookup, hak] at h
      simp [h]
    · simp only [List.lookup, hak] at h
      simp [ih h]

lemma lookup_eq_none_of_not_mem_keys {l : List (String × ℚ)} {k : String}
    (h : k ∉ l.map Prod.fst) : l.lookup k = none := by
  induction l with
  | nil => rfl
  | cons p tl ih =>
    rcases p with ⟨a, b⟩
    simp only [List.map_cons, List.mem_cons] at h
    push_neg at h
    have hak : (k == a) = false := beq_eq_false_iff_ne.mpr h.1
    simp only [List.lookup, hak]
    exact ih h.2

lemma weights_values_nonneg {w : ℚ} (h : w ∈ weights.map Prod.snd) : 0 ≤ w := by
  simp [weights] at h
  rcases h with rfl | rfl | rfl | rfl | rfl | rfl | rfl | rfl | rfl | rfl | rfl | rfl <;>
    norm_num

lemma seoScore_foldl (factors : List (String × ℚ)) : ∀ (s w : ℚ),
    factors.foldl
      (fun (acc : ℚ × ℚ) fv =>
        match weights.lookup fv.1 with
        | some weight => (acc.1 + fv.2 * weight, acc.2 + weight)
        | none => acc)
      (s, w)
    = (s + specWeightedSum factors, w + specWeightApplied factors) := by
  induction factors with
  | nil => intro s w; simp [specWeightedSum, specWeightApplied]
  | cons fv tl ih =>
    intro s w
    cases h : weights.lookup fv.1 with
    | none =>
      simp only [List.foldl_cons, h, ih, specWeightedSum, specWeightApplied,
        List.filterMap_cons, Option.map_none']
    | some wt =>
      simp only [List.foldl_cons, h, ih, specWeightedSum, specWeightApplied,
        List.filterMap_cons, Option.map_some', List.sum_cons]
      exact Prod.ext (by ring) (by ring)

lemma seoScore_char (factors : List (String × ℚ)) :
    calculateSeoScore factors =
      if 0 < specWeightApplied factors ∧ specWeightApplied factors < 1 then
        jsRound (specWeightedSum factors / specWeightApplied factors)
      else jsRound (specWeightedSum factors) := by
  simp only [calculateSeoScore]
  rw [seoScore_foldl]
  simp

lemma spec_sums_bounds (factors : List (String × ℚ))
    (hb : ∀ fv ∈ factors, 0 ≤ fv.2 ∧ fv.2 ≤ 100) :
    0 ≤ specWeightApplied factors ∧ 0 ≤ specWeightedSum factors ∧
    specWeightedSum factors ≤ 100 * specWeightApplied factors := by
  induction factors with
  | nil => simp [specWeightApplied, specWeightedSum]
  | cons fv tl ih =>
    have hfv := hb fv (by simp)
    have ihtl := ih (fun x hx => hb x (by simp [hx]))
    cases h : weights.lookup fv.1 with
    | none =>
      simpa [specWeightApplied, specWeightedSum, List.filterMap_cons, h] using ihtl
    | some wt =>
      have hw : 0 ≤ wt := weights_values_nonneg (lookup_mem_values h)
      simp only [specWeightApplied, specWeightedSum] at ihtl
      simp only [specWeightApplied, specWeightedSum, List.filterMap_cons, h,
        Option.map_some', List.sum_cons]
      refine ⟨by linarith [ihtl.1], ?_, ?_⟩
      · have hmul : 0 ≤ fv.2 * wt := mul_nonneg hfv.1 hw
        linarith [ihtl.2.1]
      · have hmul : fv.2 * wt ≤ 100 * wt := mul_le_mul_of_nonneg_right hfv.2 hw
        linarith [ihtl.2.2]

lemma specWA_eq_keys_sum (factors : List (String × ℚ)) :
    specWeightApplied factors =
      ((factors.map Prod.fst).map (fun k => (weights.lookup k).getD 0)).sum := by
  induction factors with
  | nil => simp [specWeightApplied]
  | cons fv tl ih =>
    cases h : weights.lookup fv.1 with
    | none =>
      simp only [specWeightApplied, List.filterMap_cons, h, List.map_cons, List.sum_cons,
        Option.getD_none] at ih ⊢
      rw [ih]
      ring
    | some wt =>
      simp only [specWeightApplied, List.filterMap_cons, h, List.map_cons, List.sum_cons,
        Option.getD_some] at ih ⊢
      rw [ih]

lemma getD_lookup_nonneg (k : String) : 0 ≤ (weights.lookup k).getD 0 := by
  cases h : weights.lookup k with
  | none => simp
  | some w => simpa using weights_values_nonneg (lookup_mem_values h)

lemma sum_weights_keys :
    (((weights.map Prod.fst).map (fun k => (weights.lookup k).getD 0)).sum : ℚ) = 1 := by
  with_unfolding_all rfl

lemma specWA_le_one (factors : List (String × ℚ))
    (hnd : (factors.map Prod.fst).Nodup) : specWeightApplied factors ≤ 1 := by
  rw [specWA_eq_keys_sum]
  set f : String → ℚ := fun k => (weights.lookup k).getD 0 with hf
  set keys := factors.map Prod.fst with hkeys
  have h1 : (keys.map f).sum = keys.toFinset.sum f := (List.sum_toFinset f hnd).symm
  have hzero : ∀ x ∈ keys.toFinset,
      x ∉ keys.toFinset ∩ (weights.map Prod.fst).toFinset → f x = 0 := by
    intro x hx hnx
    have hT : x ∉ (weights.map Prod.fst).toFinset :=
      fun hT => hnx (Finset.mem_inter.mpr ⟨hx, hT⟩)
    have hxk : x ∉ weights.map Prod.fst := fun hm => hT (List.mem_toFinset.mpr hm)
    simp [hf, lookup_eq_none_of_not_mem_keys hxk]
  have h2 : keys.toFinset.sum f =
      (keys.toFinset ∩ (weights.map Prod.fst).toFinset).sum f :=
    (Finset.sum_subset Finset.inter_subset_left hzero).symm
  have h3 : (keys.toFinset ∩ (weights.map Prod.fst).toFinset).sum f ≤
      ((weights.map Prod.fst).toFinset).sum f :=
    Finset.sum_le_sum_of_subset_of_nonneg Finset.inter_subset_right
      (fun i _ _ => getD_lookup_nonneg i)
  have h4 : ((weights.map Prod.fst).toFinset).sum f = ((weights.map Prod.fst).map f).sum :=
    List.sum_toFinset f (by decide)
  rw [h1, h2]
  calc (keys.toFinset ∩ (weights.map Prod.fst).toFinset).sum f
      ≤ ((weights.map Prod.fst).toFinset).sum f := h3
    _ = ((weights.map Prod.fst).map f).sum := h4
    _ = 1 := sum_weights_keys

lemma saveAnalysisResultOn_fresh (l : List AnalysisResult) (a : AnalysisResult)
    (hfresh : ∀ x ∈ l, x.id ≠ a.id) (hlen : l.length ≤ 10) :
    saveAnalysisResultOn l a = (a :: l).take 10 := by
  have hnone : l.findIdx? (fun x => x.id == a.id) = none := by
    rw [List.findIdx?_eq_none_iff]
    intro x hx
    exact beq_eq_false_iff_ne.mpr (hfresh x hx)
  simp only [saveAnalysisResultOn, hnone]
  by_cases h : l.length = 10
  · rw [if_pos (by simp [h])]
    rw [List.dropLast_eq_take]
    simp [h]
  · rw [if_neg (by simp; omega)]
    rw [List.take_of_length_le (by simp; omega)]

lemma foldl_saveAnalysisResultOn (as : List AnalysisResult)
    (h : as.Pairwise (fun x y => x.id ≠ y.id)) :
    as.foldl saveAnalysisResultOn [] = as.reverse.take 10 := by
  induction as using List.reverseRecOn with
  | nil => rfl
  | append_singleton as a ih =>
    rw [List.pairwise_append] at h
    rw [List.foldl_append, ih h.1]
    have hfresh : ∀ x ∈ as.reverse.take 10, x.id ≠ a.id := by
      intro x hx
      exact h.2.2 x (by simpa using List.mem_of_mem_take hx) a (by simp)
    rw [List.foldl_cons, List.foldl_nil,
      saveAnalysisResultOn_fresh _ _ hfresh (by simp [List.length_take])]
    rw [List.reverse_append]
    simp [List.take_succ_cons, List.take_take]

lemma jsSomeType_map_some (t : String) (hs : List Heading) :
    jsSomeType t (hs.map some) = .ok (hs.any (fun h => h.type == t)) := by
  induction hs with
  | nil => rfl
  | cons h rest ih =>
    simp only [List.map_cons, jsSomeType, List.any_cons]
    by_cases hht : (h.type == t) = true
    · simp [hht]
    · simp only [Bool.not_eq_true] at hht
      simp [hht, ih]

lemma jsCountType_map_some (t : String) (hs : List Heading) :
    jsCountType t (hs.map some) = .ok ((hs.filter (fun h => h.type == t)).length) := by
  induction hs with
  | nil => rfl
  | cons h rest ih =>
    simp only [List.map_cons, jsCountType, List.filter_cons, ih]
    by_cases hht : (h.type == t) = true
    · simp [hht]
    · simp only [Bool.not_eq_true] at hht
      simp [hht]

/-! ## Claim theorems -/

/-- C1: every scoring function returns a value in [0,100]; for
`calculateSeoScore` this holds for every factor object (distinct keys)
whose values lie in [0,100]. -/
theorem scoring_range (factors : List (String × ℚ))
    (title description content : Option String) (headings : Option (List Heading))
    (targetKeywords : List String) (minWords : ℚ) (keyword : String)
    (hnd : (factors.map Prod.fst).Nodup)
    (hb : ∀ fv ∈ factors, 0 ≤ fv.2 ∧ fv.2 ≤ 100) :
    (0 ≤ calculateSeoScore factors ∧ calculateSeoScore factors ≤ 100) ∧
    (0 ≤ calculateTitleScore title targetKeywords ∧
      calculateTitleScore title targetKeywords ≤ 100) ∧
    (0 ≤ calculateDescriptionScore description targetKeywords ∧
      calculateDescriptionScore description targetKeywords ≤ 100) ∧
    (0 ≤ calculateHeadingsScore headings ∧ calculateHeadingsScore headings ≤ 100) ∧
    (0 ≤ calculateContentScore content minWords ∧
      calculateContentScore content minWords ≤ 100) ∧
    (0 ≤ calculateKeywordDensityScore content keyword ∧
      calculateKeywordDensityScore content keyword ≤ 100) := by
  refine ⟨?_, ?_, ?_, ?_, ?_, ?_⟩
  · rw [seoScore_char]
    obtain ⟨hW0, hS0, hS100⟩ := spec_sums_bounds factors hb
    have hW1 := specWA_le_one factors hnd
    split_ifs with h
    · refine jsRound_bounds (div_nonneg hS0 (le_of_lt h.1)) ?_
      rw [div_le_iff₀ h.1]
      linarith
    · exact jsRound_bounds hS0 (by nlinarith)
  · cases title with
    | none => simp [calculateTitleScore]
    | some t =>
      simp only [calculateTitleScore]
      split_ifs <;>
        first
          | (refine jsRound_bounds ?_ ?_ <;> norm_num)
          | norm_num
  · cases description with
    | none => simp [calculateDescriptionScore]
    | some d =>
      simp only [calculateDescriptionScore]
      split_ifs <;>
        first
          | (refine jsRound_bounds ?_ ?_ <;> norm_num)
          | norm_num
  · cases headings with
    | none => simp [calculateHeadingsScore]
    | some hs =>
      simp only [calculateHeadingsScore]
      split_ifs <;> omega
  · cases content with
    | none => simp [calculateContentScore]
    | some c =>
      simp only [calculateContentScore]
      split_ifs <;> norm_num
  · cases content with
    | none => simp [calculateKeywordDensityScore]
    | some c =>
      simp only [calculateKeywordDensityScore]
      split_ifs <;> norm_num

/-- Witness for C1 at concrete inputs (the spec's two-factor object and
a small title/keyword pair). -/
theorem scoring_range_witness :
    0 ≤ calculateSeoScore [("metaTitle", 80), ("contentQuality", 60)] ∧
    calculateSeoScore [("metaTitle", 80), ("contentQuality", 60)] ≤ 100 ∧
    0 ≤ calculateTitleScore (some "hello world") ["world"] ∧
    calculateTitleScore (some "hello world") ["world"] ≤ 100 := by
  have h := scoring_range [("metaTitle", 80), ("contentQuality", 60)]
    (some "hello world") (some "a description") (some "some content text")
    (some [⟨"h1"⟩]) ["world"] 300 "world"
    (by decide)
    (by intro fv hfv; simp at hfv; rcases hfv with rfl | rfl <;> norm_num)
  exact ⟨h.1.1, h.1.2, h.2.1.1, h.2.1.2⟩

/-- C2: `calculateSeoScore` ignores unrecognized factor keys, returns
the rounded renormalized weighted sum when the applied weight is in
(0,1), the rounded raw weighted sum otherwise, and evaluates to 69 on
the spec's two-factor example. -/
theorem seoScore_weighting_spec :
    (∀ (factors : List (String × ℚ)) (k : String) (v : ℚ),
      weights.lookup k = none →
      calculateSeoScore ((k, v) :: factors) = calculateSeoScore factors) ∧
    (∀ factors : List (String × ℚ),
      calculateSeoScore factors =
        if 0 < specWeightApplied factors ∧ specWeightApplied factors < 1 then
          jsRound (specWeightedSum factors / specWeightApplied factors)
        else jsRound (specWeightedSum factors)) ∧
    calculateSeoScore [("metaTitle", 80), ("contentQuality", 60)] = 69 := by
  refine ⟨?_, seoScore_char, by with_unfolding_all rfl⟩
  intro factors k v hk
  rw [seoScore_char, seoScore_char]
  have h1 : specWeightApplied ((k, v) :: factors) = specWeightApplied factors := by
    simp [specWeightApplied, List.filterMap_cons, hk]
  have h2 : specWeightedSum ((k, v) :: factors) = specWeightedSum factors := by
    simp [specWeightedSum, List.filterMap_cons, hk]
  rw [h1, h2]

/-- Witness for C2 at the concrete unknown key `"unknownFactor"`. -/
theorem seoScore_weighting_spec_witness :
    weights.lookup "unknownFactor" = none ∧
    calculateSeoScore [("unknownFactor", 50), ("metaTitle", 80), ("contentQuality", 60)] =
      calculateSeoScore [("metaTitle", 80), ("contentQuality", 60)] :=
  ⟨by with_unfolding_all rfl,
   seoScore_weighting_spec.1 [("metaTitle", 80), ("contentQuality", 60)] "unknownFactor" 50
     (by with_unfolding_all rfl)⟩

/-- C3: eleven inserts of analyses with pairwise-distinct ids into the
empty collection leave exactly 10 entries, most-recent first (the
reverse of the insertion order minus the first), with the first-inserted
entity evicted. -/
theorem saveAnalysisResult_fifo_cap (as : List AnalysisResult)
    (hlen : as.length = 11) (hids : as.Pairwise (fun x y => x.id ≠ y.id)) :
    as.foldl saveAnalysisResultOn [] = (as.drop 1).reverse ∧
    (as.foldl saveAnalysisResultOn []).length = 10 ∧
    ∀ a0, as.head? = some a0 → a0 ∉ as.foldl saveAnalysisResultOn [] := by
  have key := foldl_saveAnalysisResultOn as hids
  obtain ⟨a, t, rfl⟩ : ∃ a t, as = a :: t := by
    cases as with
    | nil => simp at hlen
    | cons a t => exact ⟨a, t, rfl⟩
  have htl : t.length = 10 := by simpa using hlen
  have hrev : (a :: t).reverse.take 10 = t.reverse := by
    rw [List.reverse_cons]
    have h10 : t.reverse.length = 10 := by simp [htl]
    rw [List.take_left' h10]
  rw [key, hrev]
  refine ⟨by simp, by simp [htl], ?_⟩
  intro a0 h0 hmem
  have ha0 : a = a0 := by simpa using h0
  subst ha0
  have hat : a ∈ t := by simpa using hmem
  have := (List.pairwise_cons.mp hids).1 a hat
  exact this rfl

/-- Witness for C3: the eleven concrete analyses `a01`..`a11`. -/
theorem saveAnalysisResult_fifo_cap_witness :
    sampleAnalysesEleven.length = 11 ∧
    sampleAnalysesEleven.foldl saveAnalysisResultOn [] =
      (sampleAnalysesEleven.drop 1).reverse ∧
    (sampleAnalysesEleven.foldl saveAnalysisResultOn []).length = 10 :=
  ⟨rfl,
   (saveAnalysisResult_fifo_cap sampleAnalysesEleven rfl (by decide)).1,
   (saveAnalysisResult_fifo_cap sampleAnalysesEleven rfl (by decide)).2.1⟩

/-- Counterexample to C4 as stated: `saveAnalysisResult` puts a new
entity at the *front* (so the result is not an append, whose head would
be the old entity), and `saveKeyword`/`saveCompetitorAnalysis` store a
replacing entity exactly as passed, with no updated-timestamp stamped. -/
theorem save_semantics_counterexample :
    (saveAnalysisResultOn [sampleAnalysis "a01"] (sampleAnalysis "a02") =
      [sampleAnalysis "a02", sampleAnalysis "a01"] ∧
     (saveAnalysisResultOn [sampleAnalysis "a01"] (sampleAnalysis "a02")).head? =
       some (sampleAnalysis "a02") ∧
     sampleAnalysis "a02" ≠ sampleAnalysis "a01") ∧
    (saveKeywordOn [sampleKeyword] sampleKeyword2 "t2" = [sampleKeyword2] ∧
     sampleKeyword2.dateAdded = "t0" ∧ ("t0" : String) ≠ "t2") ∧
    (saveCompetitorAnalysisOn [sampleCompetitor] sampleCompetitor2 "t2" =
      [sampleCompetitor2] ∧
     sampleCompetitor2.dateCreated = "t0" ∧ ("t0" : String) ≠ "t2") := by
  refine ⟨⟨?_, ?_, ?_⟩, ⟨?_, rfl, ?_⟩, ⟨?_, rfl, ?_⟩⟩ <;> with_unfolding_all first | rfl | decide

/-- C4 (amended): every save operation with an existing identifier
replaces at the existing position, preserving the collection length and
every other position — `saveProject`/`saveContent` restamp
`dateUpdated`, the other three store the entity as passed; with a fresh
identifier, `saveProject`/`saveKeyword`/`saveContent`/
`saveCompetitorAnalysis` append a created-stamped entity while
`saveAnalysisResult` prepends the entity unstamped and drops the tail
entry beyond 10. -/
theorem save_replace_or_insert_semantics :
    (∀ (l : List Project) (e : Project) (now : String) (i : ℕ),
      l.findIdx? (fun p => p.id == e.id) = some i →
        saveProjectOn l e now = l.set i { e with dateUpdated := now } ∧
        (saveProjectOn l e now).length = l.length ∧
        ∀ j, j ≠ i → (saveProjectOn l e now)[j]? = l[j]?) ∧
    (∀ (l : List Project) (e : Project) (now : String),
      l.findIdx? (fun p => p.id == e.id) = none →
        saveProjectOn l e now = l ++ [{ e with dateCreated := now, dateUpdated := now }]) ∧
    (∀ (l : List AnalysisResult) (e : AnalysisResult) (i : ℕ),
      l.findIdx? (fun a => a.id == e.id) = some i →
        saveAnalysisResultOn l e = l.set i e ∧
        (saveAnalysisResultOn l e).length = l.length ∧
        ∀ j, j ≠ i → (saveAnalysisResultOn l e)[j]? = l[j]?) ∧
    (∀ (l : List AnalysisResult) (e : AnalysisResult),
      l.findIdx? (fun a => a.id == e.id) = none →
        saveAnalysisResultOn l e =
          if (e :: l).length > 10 then (e :: l).dropLast else e :: l) ∧
    (∀ (l : List SavedKeyword) (e : SavedKeyword) (now : String) (i : ℕ),
      l.findIdx? (fun k => k.id == e.id) = some i →
        saveKeywordOn l e now = l.set i e ∧
        (saveKeywordOn l e now).length = l.length ∧
        ∀ j, j ≠ i → (saveKeywordOn l e now)[j]? = l[j]?) ∧
    (∀ (l : List SavedKeyword) (e : SavedKeyword) (now : String),
      l.findIdx? (fun k => k.id == e.id) = none →
        saveKeywordOn l e now = l ++ [{ e with dateAdded := now }]) ∧
    (∀ (l : List SavedContent) (e : SavedContent) (now : String) (i : ℕ),
      l.findIdx? (fun c => c.id == e.id) = some i →
        saveContentOn l e now = l.set i { e with dateUpdated := now } ∧
        (saveContentOn l e now).length = l.length ∧
        ∀ j, j ≠ i → (saveContentOn l e now)[j]? = l[j]?) ∧
    (∀ (l : List SavedContent) (e : SavedContent) (now : String),
      l.findIdx? (fun c => c.id == e.id) = none →
        saveContentOn l e now = l ++ [{ e with dateCreated := now, dateUpdated := now }]) ∧
    (∀ (l : List CompetitorAnalysis) (e : CompetitorAnalysis) (now : String) (i : ℕ),
      l.findIdx? (fun a => a.id == e.id) = some i →
        saveCompetitorAnalysisOn l e now = l.set i e ∧
        (saveCompetitorAnalysisOn l e now).length = l.length ∧
        ∀ j, j ≠ i → (saveCompetitorAnalysisOn l e now)[j]? = l[j]?) ∧
    (∀ (l : List CompetitorAnalysis) (e : CompetitorAnalysis) (now : String),
      l.findIdx? (fun a => a.id == e.id) = none →
        saveCompetitorAnalysisOn l e now = l ++ [{ e with dateCreated := now }]) := by
  refine ⟨?_, ?_, ?_, ?_, ?_, ?_, ?_, ?_, ?_, ?_⟩
  · intro l e now i h
    refine ⟨by simp only [saveProjectOn, h], by simp [saveProjectOn, h], ?_⟩
    intro j hj
    simp only [saveProjectOn, h]
    exact List.getElem?_set_ne (Ne.symm hj)
  · intro l e now h
    simp only [saveProjectOn, h]
  · intro l e i h
    refine ⟨by simp only [saveAnalysisResultOn, h], by simp [saveAnalysisResultOn, h], ?_⟩
    intro j hj
    simp only [saveAnalysisResultOn, h]
    exact List.getElem?_set_ne (Ne.symm hj)
  · intro l e h
    simp only [saveAnalysisResultOn, h]
  · intro l e now i h
    refine ⟨by simp only [saveKeywordOn, h], by simp [saveKeywordOn, h], ?_⟩
    intro j hj
    simp only [saveKeywordOn, h]
    exact List.getElem?_set_ne (Ne.symm hj)
  · intro l e now h
    simp only [saveKeywordOn, h]
  · intro l e now i h
    refine ⟨by simp only [saveContentOn, h], by simp [saveContentOn, h], ?_⟩
    intro j hj
    simp only [saveContentOn, h]
    exact List.getElem?_set_ne (Ne.symm hj)
  · intro l e now h
    simp only [saveContentOn, h]
  · intro l e now i h
    refine ⟨by simp only [saveCompetitorAnalysisOn, h], by simp [saveCompetitorAnalysisOn, h], ?_⟩
    intro j hj
    simp only [saveCompetitorAnalysisOn, h]
    exact List.getElem?_set_ne (Ne.symm hj)
  · intro l e now h
    simp only [saveCompetitorAnalysisOn, h]

/-- Witness for C4 (amended): one replace and one insert per save
operation, on concrete singleton or empty collections. -/
theorem save_replace_or_insert_semantics_witness :
    saveProjectOn [sampleProject] sampleProject2 "t2" =
      [{ sampleProject2 with dateUpdated := "t2" }] ∧
    saveProjectOn [] sampleProject "t1" =
      [{ sampleProject with dateCreated := "t1", dateUpdated := "t1" }] ∧
    saveAnalysisResultOn [sampleAnalysis "a01"] sampleAnalysis2 = [sampleAnalysis2] ∧
    saveAnalysisResultOn [sampleAnalysis "a01"] (sampleAnalysis "a02") =
      [sampleAnalysis "a02", sampleAnalysis "a01"] ∧
    saveKeywordOn [sampleKeyword] sampleKeyword2 "t2" = [sampleKeyword2] ∧
    saveKeywordOn [] sampleKeyword "t1" = [{ sampleKeyword with dateAdded := "t1" }] ∧
    saveContentOn [sampleContent] sampleContent2 "t2" =
      [{ sampleContent2 with dateUpdated := "t2" }] ∧
    saveContentOn [] sampleContent "t1" =
      [{ sampleContent with dateCreated := "t1", dateUpdated := "t1" }] ∧
    saveCompetitorAnalysisOn [sampleCompetitor] sampleCompetitor2 "t2" =
      [sampleCompetitor2] ∧
    saveCompetitorAnalysisOn [] sampleCompetitor "t1" =
      [{ sampleCompetitor with dateCreated := "t1" }] := by
  refine ⟨?_, ?_, ?_, ?_, ?_, ?_, ?_, ?_, ?_, ?_⟩
  · exact ((save_replace_or_insert_semantics.1 [sampleProject] sampleProject2 "t2" 0
      rfl).1).trans rfl
  · exact (save_replace_or_insert_semantics.2.1 [] sampleProject "t1" rfl).trans rfl
  · exact ((save_replace_or_insert_semantics.2.2.1 [sampleAnalysis "a01"] sampleAnalysis2 0
      rfl).1).trans rfl
  · exact (save_replace_or_insert_semantics.2.2.2.1 [sampleAnalysis "a01"]
      (sampleAnalysis "a02") rfl).trans rfl
  · exact ((save_replace_or_insert_semantics.2.2.2.2.1 [sampleKeyword] sampleKeyword2 "t2" 0
      rfl).1).trans rfl
  · exact (save_replace_or_insert_semantics.2.2.2.2.2.1 [] sampleKeyword "t1" rfl).trans rfl
  · exact ((save_replace_or_insert_semantics.2.2.2.2.2.2.1 [sampleContent] sampleContent2
      "t2" 0 rfl).1).trans rfl
  · exact (save_replace_or_insert_semantics.2.2.2.2.2.2.2.1 [] sampleContent "t1"
      rfl).trans rfl
  · exact ((save_replace_or_insert_semantics.2.2.2.2.2.2.2.2.1 [sampleCompetitor]
      sampleCompetitor2 "t2" 0 rfl).1).trans rfl
  · exact (save_replace_or_insert_semantics.2.2.2.2.2.2.2.2.2 [] sampleCompetitor "t1"
      rfl).trans rfl

/-- C5: `calculateTitleScore` returns 0 for an absent or empty title,
otherwise the length subscore (100 / 70 / 40), averaged (rounded) with a
100-or-0 keyword subscore when the keyword list is non-empty; with the
spec's four concrete evaluations. -/
theorem titleScore_matches_spec :
    (∀ (title : Option String) (targetKeywords : List String),
      calculateTitleScore title targetKeywords = specTitleScore title targetKeywords) ∧
    calculateTitleScore none [] = 0 ∧
    calculateTitleScore (some (String.mk (List.replicate 55 'x'))) [] = 100 ∧
    calculateTitleScore (some (String.mk (List.replicate 55 'x'))) ["y"] = 50 ∧
    calculateTitleScore (some (String.mk (List.replicate 55 'x') ++ " y")) ["y"] = 100 := by
  refine ⟨?_, rfl, ?_, ?_, ?_⟩
  · intro title targetKeywords
    cases title with
    | none => rfl
    | some t =>
      unfold calculateTitleScore specTitleScore
      by_cases ht : t = ""
      · simp [ht]
      · have hlen : 0 < t.length := string_length_pos ht
        by_cases hk : targetKeywords = []
        · subst hk
          simp only [ht, ite_false, List.length_nil, gt_iff_lt, Nat.lt_irrefl]
          split_ifs <;> simp_all
        · have hk' : targetKeywords.length > 0 := List.length_pos.mpr hk
          simp only [ht, ite_false, hk, hk', gt_iff_lt, if_true, ite_true]
          split_ifs <;> simp_all
  · with_unfolding_all rfl
  · with_unfolding_all rfl
  · with_unfolding_all rfl

/-- C6: the density bucket mapping of `calculateKeywordDensityScore`
(100 on [1,3], 70 on (0,1), 50 on (3,5], 30 above 5, otherwise 0), with
the spec's example evaluating to 30. -/
theorem keywordDensityScore_matches_spec :
    (∀ (c keyword : String), c ≠ "" → keyword ≠ "" →
      (splitWords c.toLower).length ≠ 0 →
      ((1 ≤ keywordDensity c keyword ∧ keywordDensity c keyword ≤ 3) →
        calculateKeywordDensityScore (some c) keyword = 100) ∧
      ((0 < keywordDensity c keyword ∧ keywordDensity c keyword < 1) →
        calculateKeywordDensityScore (some c) keyword = 70) ∧
      ((3 < keywordDensity c keyword ∧ keywordDensity c keyword ≤ 5) →
        calculateKeywordDensityScore (some c) keyword = 50) ∧
      (5 < keywordDensity c keyword →
        calculateKeywordDensityScore (some c) keyword = 30) ∧
      (keywordDensity c keyword = 0 →
        calculateKeywordDensityScore (some c) keyword = 0)) ∧
    calculateKeywordDensityScore (some "a a a a a a a a a a b") "a" = 30 := by
  refine ⟨?_, by with_unfolding_all rfl⟩
  intro c keyword hc hk htw
  have key : calculateKeywordDensityScore (some c) keyword =
      (if 1 ≤ keywordDensity c keyword ∧ keywordDensity c keyword ≤ 3 then 100
       else if 0 < keywordDensity c keyword ∧ keywordDensity c keyword < 1 then 70
       else if 3 < keywordDensity c keyword ∧ keywordDensity c keyword ≤ 5 then 50
       else if 5 < keywordDensity c keyword then 30 else 0) := by
    simp only [calculateKeywordDensityScore, keywordDensity, if_neg hc, if_neg hk, if_neg htw]
  refine ⟨?_, ?_, ?_, ?_, ?_⟩ <;> intro h <;> rw [key]
  · rw [if_pos h]
  · split_ifs <;> first | rfl | linarith [h.1, h.2]
  · split_ifs <;> first | rfl | linarith [h.1, h.2]
  · split_ifs <;> first | rfl | linarith [h]
  · rw [h]
    norm_num

/-- Witness for C6 at the spec's concrete example, where the density is
1000/11 ≈ 90.9 and the over-optimization bucket applies. -/
theorem keywordDensityScore_matches_spec_witness :
    keywordDensity "a a a a a a a a a a b" "a" = 1000 / 11 ∧
    calculateKeywordDensityScore (some "a a a a a a a a a a b") "a" = 30 := by
  have hd : keywordDensity "a a a a a a a a a a b" "a" = 1000 / 11 := by
    with_unfolding_all rfl
  refine ⟨hd, ?_⟩
  have h := (keywordDensityScore_matches_spec.1 "a a a a a a a a a a b" "a"
    (by decide) (by decide) (by with_unfolding_all decide)).2.2.2.1
  exact h (by rw [hd]; norm_num)

/-- C7: for every headings list the score is the clamp to [0,100] of
50·[some h1] + 25·[some h2] + 25·[exactly one h1] − 25·[more than one
h1], and the spec's example evaluates to 50. -/
theorem headingsScore_matches_spec :
    (∀ hs : List Heading,
      calculateHeadingsScore (some hs) =
        max 0 (min 100
          ((if hs.any (fun h => h.type == "h1") then (50 : ℤ) else 0) +
           (if hs.any (fun h => h.type == "h2") then (25 : ℤ) else 0) +
           (if (hs.filter (fun h => h.type == "h1")).length = 1 then (25 : ℤ) else 0) -
           (if (hs.filter (fun h => h.type == "h1")).length > 1 then (25 : ℤ) else 0)))) ∧
    calculateHeadingsScore (some [⟨"h1"⟩, ⟨"h1"⟩, ⟨"h2"⟩]) = 50 := by
  refine ⟨?_, by with_unfolding_all rfl⟩
  intro hs
  simp only [calculateHeadingsScore]
  split_ifs <;> omega

/-- C8: read failures (unavailable storage, missing key, malformed
value) are swallowed and the default returned, for the generic reader
and for every typed getter; write failures are re-thrown by the generic
writer and therefore by every save operation. -/
theorem storage_error_asymmetry :
    ∀ (α : Type) (s : LocalStorage) (key raw value : String)
      (decode : String → Option α) (defaultValue : α)
      (decP : String → Option (List Project)) (encP : List Project → String)
      (decA : String → Option (List AnalysisResult)) (encA : List AnalysisResult → String)
      (decK : String → Option (List SavedKeyword)) (encK : List SavedKeyword → String)
      (decC : String → Option (List SavedContent)) (encC : List SavedContent → String)
      (decX : String → Option (List CompetitorAnalysis))
      (encX : List CompetitorAnalysis → String)
      (decCr : String → Option Credentials) (encCr : Credentials → String)
      (decE : String → Option ApiEndpoints) (encE : ApiEndpoints → String)
      (decS : String → Option UserSettings) (encS : UserSettings → String)
      (project : Project) (analysis : AnalysisResult) (keyword : SavedKeyword)
      (content : SavedContent) (competitor : CompetitorAnalysis)
      (credentials : Credentials) (endpoints : ApiEndpoints) (settings : UserSettings)
      (now : String),
      (s.avail = false → getFromStorage true s key decode defaultValue = defaultValue) ∧
      (s.avail = true → s.items key = none →
        getFromStorage true s key decode defaultValue = defaultValue) ∧
      (s.avail = true → s.items key = some raw → decode raw = none →
        getFromStorage true s key decode defaultValue = defaultValue) ∧
      (s.avail = false →
        getProjects true s decP = [] ∧
        getRecentAnalyses true s decA = [] ∧
        getSavedKeywords true s decK = [] ∧
        getSavedContent true s decC = [] ∧
        getCompetitorAnalyses true s decX = [] ∧
        getCredentials true s decCr = defaultCredentials ∧
        getApiEndpoints true s decE = defaultApiEndpoints ∧
        getUserSettings true s decS = defaultUserSettings) ∧
      (s.avail = false ∨ s.quotaFull = true →
        setInStorage true s key value = .error ()) ∧
      (s.avail = true → s.quotaFull = false →
        setInStorage true s key value =
          .ok { s with items := fun k => if k = key then some value else s.items k }) ∧
      (s.avail = false ∨ s.quotaFull = true →
        saveProject true s decP encP project now = .error () ∧
        saveAnalysisResult true s decA encA analysis = .error () ∧
        saveKeyword true s decK encK keyword now = .error () ∧
        saveContent true s decC encC content now = .error () ∧
        saveCompetitorAnalysis true s decX encX competitor now = .error () ∧
        saveCredentials true s encCr credentials = .error () ∧
        saveApiEndpoints true s encE endpoints = .error () ∧
        saveUserSettings true s encS settings = .error ()) := by
  intros α s key raw value decode defaultValue decP encP decA encA decK encK decC encC
    decX encX decCr encCr decE encE decS encS project analysis keyword content competitor
    credentials endpoints settings now
  have hget : ∀ (β : Type) (k : String) (dec : String → Option β) (dv : β),
      s.avail = false → getFromStorage true s k dec dv = dv := by
    intro β k dec dv h
    simp [getFromStorage, getItem, h]
  have hset : ∀ k v : String, s.avail = false ∨ s.quotaFull = true →
      setInStorage true s k v = .error () := by
    intro k v h
    rcases h with h | h <;> simp [setInStorage, setItem, h]
  refine ⟨hget α key decode defaultValue, ?_, ?_, ?_, hset key value, ?_, ?_⟩
  · intro ha hm
    simp [getFromStorage, getItem, ha, hm]
  · intro ha hm hd
    by_cases hraw : raw = "" <;> simp [getFromStorage, getItem, ha, hm, hd, hraw]
  · intro h
    exact ⟨hget _ _ _ _ h, hget _ _ _ _ h, hget _ _ _ _ h, hget _ _ _ _ h,
      hget _ _ _ _ h, hget _ _ _ _ h, hget _ _ _ _ h, hget _ _ _ _ h⟩
  · intro ha hq
    simp [setInStorage, setItem, ha, hq]
  · intro h
    exact ⟨hset _ _ h, hset _ _ h, hset _ _ h, hset _ _ h, hset _ _ h, hset _ _ h,
      hset _ _ h, hset _ _ h⟩

/-- Witness for C8: an unavailable store swallows reads into defaults,
and a quota-full store makes the generic writer and `saveProject`
re-throw. -/
theorem storage_error_asymmetry_witness :
    getFromStorage true storeUnavailable "k" (fun _ => none) (0 : ℤ) = 0 ∧
    getProjects true storeUnavailable (fun _ => none) = [] ∧
    setInStorage true storeQuotaFull "k" "v" = .error () ∧
    saveProject true storeQuotaFull (fun _ => none) (fun _ => "") sampleProject "t1" =
      .error () := by
  have h1 := storage_error_asymmetry ℤ storeUnavailable "k" "r" "v" (fun _ => none) 0
    (fun _ => none) (fun _ => "") (fun _ => none) (fun _ => "") (fun _ => none) (fun _ => "")
    (fun _ => none) (fun _ => "") (fun _ => none) (fun _ => "") (fun _ => none) (fun _ => "")
    (fun _ => none) (fun _ => "") (fun _ => none) (fun _ => "") sampleProject
    (sampleAnalysis "a01") sampleKeyword sampleContent sampleCompetitor defaultCredentials
    defaultApiEndpoints defaultUserSettings "t1"
  have h2 := storage_error_asymmetry ℤ storeQuotaFull "k" "r" "v" (fun _ => none) 0
    (fun _ => none) (fun _ => "") (fun _ => none) (fun _ => "") (fun _ => none) (fun _ => "")
    (fun _ => none) (fun _ => "") (fun _ => none) (fun _ => "") (fun _ => none) (fun _ => "")
    (fun _ => none) (fun _ => "") (fun _ => none) (fun _ => "") sampleProject
    (sampleAnalysis "a01") sampleKeyword sampleContent sampleCompetitor defaultCredentials
    defaultApiEndpoints defaultUserSettings "t1"
  exact ⟨h1.1 rfl, (h1.2.2.2.1 rfl).1, h2.2.2.2.2.1 (Or.inr rfl),
    (h2.2.2.2.2.2.2 (Or.inr rfl)).1⟩

/-- C9 (code bug): totality fails at the concrete input `[null]` — a
one-element array containing null passes the `!headings ||
!Array.isArray(headings)` guard and `headings.some(h => h.type ===
'h1')` then throws a TypeError, modelled by `Except.error`.  On arrays
of well-formed headings the function agrees with
`calculateHeadingsScore`, and absent or empty input does yield 0 for
every scoring function as documented. -/
theorem headingsScore_throws_on_null_element :
    calculateHeadingsScoreJs (some [none]) = .error () ∧
    calculateHeadingsScoreJs none = .ok 0 ∧
    (∀ hs : List Heading,
      calculateHeadingsScoreJs (some (hs.map some)) = .ok (calculateHeadingsScore (some hs))) ∧
    (∀ (targetKeywords : List String) (minWords : ℚ) (keyword c : String),
      calculateTitleScore none targetKeywords = 0 ∧
      calculateTitleScore (some "") targetKeywords = 0 ∧
      calculateDescriptionScore none targetKeywords = 0 ∧
      calculateDescriptionScore (some "") targetKeywords = 0 ∧
      calculateHeadingsScore none = 0 ∧
      calculateContentScore none minWords = 0 ∧
      calculateContentScore (some "") minWords = 0 ∧
      calculateKeywordDensityScore none keyword = 0 ∧
      calculateKeywordDensityScore (some c) "" = 0 ∧
      calculateKeywordDensityScore (some "") keyword = 0) := by
  refine ⟨rfl, rfl, ?_, ?_⟩
  · intro hs
    simp only [calculateHeadingsScoreJs, calculateHeadingsScore, jsSomeType_map_some,
      jsCountType_map_some]
  · intro targetKeywords minWords keyword c
    refine ⟨rfl, by simp [calculateTitleScore], rfl, by simp [calculateDescriptionScore],
      rfl, rfl, by simp [calculateContentScore], rfl, ?_, by simp [calculateKeywordDensityScore]⟩
    by_cases hc : c = "" <;> simp [calculateKeywordDensityScore, hc]

/-- C10: with no browser window every save operation returns silently
with the storage state unchanged and no error, and every get operation
returns its default value. -/
theorem storage_noop_without_window :
    ∀ (s : LocalStorage)
      (decP : String → Option (List Project)) (encP : List Project → String)
      (decA : String → Option (List AnalysisResult)) (encA : List AnalysisResult → String)
      (decK : String → Option (List SavedKeyword)) (encK : List SavedKeyword → String)
      (decC : String → Option (List SavedContent)) (encC : List SavedContent → String)
      (decX : String → Option (List CompetitorAnalysis))
      (encX : List CompetitorAnalysis → String)
      (decCr : String → Option Credentials) (encCr : Credentials → String)
      (decE : String → Option ApiEndpoints) (encE : ApiEndpoints → String)
      (decS : String → Option UserSettings) (encS : UserSettings → String)
      (project : Project) (analysis : AnalysisResult) (keyword : SavedKeyword)
      (content : SavedContent) (competitor : CompetitorAnalysis)
      (credentials : Credentials) (endpoints : ApiEndpoints) (settings : UserSettings)
      (now : String),
      getProjects false s decP = [] ∧
      getRecentAnalyses false s decA = [] ∧
      getSavedKeywords false s decK = [] ∧
      getSavedContent false s decC = [] ∧
      getCompetitorAnalyses false s decX = [] ∧
      getCredentials false s decCr = defaultCredentials ∧
      getApiEndpoints false s decE = defaultApiEndpoints ∧
      getUserSettings false s decS = defaultUserSettings ∧
      saveProject false s decP encP project now = .ok s ∧
      saveAnalysisResult false s decA encA analysis = .ok s ∧
      saveKeyword false s decK encK keyword now = .ok s ∧
      saveContent false s decC encC content now = .ok s ∧
      saveCompetitorAnalysis false s decX encX competitor now = .ok s ∧
      saveCredentials false s encCr credentials = .ok s ∧
      saveApiEndpoints false s encE endpoints = .ok s ∧
      saveUserSettings false s encS settings = .ok s := by
  intros
  exact ⟨rfl, rfl, rfl, rfl, rfl, rfl, rfl, rfl, rfl, rfl, rfl, rfl, rfl, rfl, rfl, rfl⟩
